import Mathlib

/-!
Verification of the request-authentication and dispatch core of the
Cryptorg spot-bot API client (`src/CryptorgApi.js`).

The embedding is executable: bytes are `List Nat` (each byte `< 256`),
SHA-256, HMAC-SHA-256, base64 and lowercase-hex encoding are implemented
as computable functions, so concrete signatures evaluate inside the
kernel. JavaScript's coercion of `null` in string concatenation is made
explicit (`jsStr`), the per-dispatch wall-clock read is an explicit clock
state, and the promise produced by `sendRequest` is a function from the
transport outcome to an optional settlement (`none` when the executor
runs neither branch and the promise therefore never settles).
-/

namespace Cryptorg

/-- Truncation to a 32-bit word. -/
def w32 (n : Nat) : Nat := n % 4294967296

/-- Right rotation of a 32-bit word by `k` bits. -/
def rotr (k n : Nat) : Nat := w32 ((n >>> k) ||| (n <<< (32 - k)))

/-- The SHA-256 round constants. -/
def roundK : List Nat :=
  [1116352408, 1899447441, 3049323471, 3921009573, 961987163, 1508970993,
   2453635748, 2870763221, 3624381080, 310598401, 607225278, 1426881987,
   1925078388, 2162078206, 2614888103, 3248222580, 3835390401, 4022224774,
   264347078, 604807628, 770255983, 1249150122, 1555081692, 1996064986,
   2554220882, 2821834349, 2952996808, 3210313671, 3336571891, 3584528711,
   113926993, 338241895, 666307205, 773529912, 1294757372, 1396182291,
   1695183700, 1986661051, 2177026350, 2456956037, 2730485921, 2820302411,
   3259730800, 3345764771, 3516065817, 3600352804, 4094571909, 275423344,
   430227734, 506948616, 659060556, 883997877, 958139571, 1322822218,
   1537002063, 1747873779, 1955562222, 2024104815, 2227730452, 2361852424,
   2428436474, 2756734187, 3204031479, 3329325298]

/-- The eight 32-bit working variables of the SHA-256 compression state. -/
structure HS where
  a : Nat
  b : Nat
  c : Nat
  d : Nat
  e : Nat
  f : Nat
  g : Nat
  h : Nat
deriving DecidableEq

/-- The SHA-256 initial hash value. -/
def initHS : HS :=
  ⟨1779033703, 3144134277, 1013904242, 2773480762,
   1359893119, 2600822924, 528734635, 1541459225⟩

/-- Message-schedule sigma-0. -/
def ssig0 (x : Nat) : Nat := rotr 7 x ^^^ rotr 18 x ^^^ (x >>> 3)

/-- Message-schedule sigma-1. -/
def ssig1 (x : Nat) : Nat := rotr 17 x ^^^ rotr 19 x ^^^ (x >>> 10)

/-- Extend the message schedule by `fuel` words; `rev` holds the schedule
so far, newest word first. -/
def schedAux : Nat → List Nat → List Nat
  | 0, rev => rev
  | fuel + 1, rev =>
      let next := w32 (ssig1 (rev.getD 1 0) + rev.getD 6 0 +
        ssig0 (rev.getD 14 0) + rev.getD 15 0)
      schedAux fuel (next :: rev)

/-- The 64-word message schedule of one 16-word block. -/
def schedule (block : List Nat) : List Nat :=
  (schedAux 48 block.reverse).reverse

/-- One SHA-256 round: `kw` is the round constant plus the schedule word. -/
def sha256Round (s : HS) (kw : Nat) : HS :=
  let bS1 := rotr 6 s.e ^^^ rotr 11 s.e ^^^ rotr 25 s.e
  let ch := (s.e &&& s.f) ^^^ ((s.e ^^^ 4294967295) &&& s.g)
  let t1 := w32 (s.h + bS1 + ch + kw)
  let bS0 := rotr 2 s.a ^^^ rotr 13 s.a ^^^ rotr 22 s.a
  let mj := (s.a &&& s.b) ^^^ (s.a &&& s.c) ^^^ (s.b &&& s.c)
  let t2 := w32 (bS0 + mj)
  ⟨w32 (t1 + t2), s.a, s.b, s.c, w32 (s.d + t1), s.e, s.f, s.g⟩

/-- The SHA-256 compression function on one 16-word block. -/
def compress (st : HS) (block : List Nat) : HS :=
  let kws := (roundK.zip (schedule block)).map fun p => w32 (p.1 + p.2)
  let s := kws.foldl sha256Round st
  ⟨w32 (st.a + s.a), w32 (st.b + s.b), w32 (st.c + s.c), w32 (st.d + s.d),
   w32 (st.e + s.e), w32 (st.f + s.f), w32 (st.g + s.g), w32 (st.h + s.h)⟩

/-- Fold the compression function over a padded message, 16 words at a time. -/
def processWords (st : HS) : List Nat → HS
  | w0 :: w1 :: w2 :: w3 :: w4 :: w5 :: w6 :: w7 ::
    w8 :: w9 :: w10 :: w11 :: w12 :: w13 :: w14 :: w15 :: rest =>
      processWords
        (compress st [w0, w1, w2, w3, w4, w5, w6, w7,
                      w8, w9, w10, w11, w12, w13, w14, w15]) rest
  | _ => st

/-- Big-endian bytes of `n`, `k` bytes wide. -/
def natToBEBytes : Nat → Nat → List Nat
  | 0, _ => []
  | k + 1, n => natToBEBytes k (n / 256) ++ [n % 256]

/-- SHA-256 padding: append `0x80`, zeros to 56 mod 64, then the bit length
as eight big-endian bytes. -/
def padMessage (msg : List Nat) : List Nat :=
  let len := msg.length
  msg ++ 128 :: List.replicate ((119 - len % 64) % 64) 0 ++
    natToBEBytes 8 (len * 8)

/-- Pack bytes into big-endian 32-bit words, four at a time. -/
def bytesToWords : List Nat → List Nat
  | a :: b :: c :: d :: rest =>
      (a * 16777216 + b * 65536 + c * 256 + d) :: bytesToWords rest
  | _ => []

/-- The digest bytes of a final SHA-256 state. -/
def hsBytes (s : HS) : List Nat :=
  natToBEBytes 4 s.a ++ natToBEBytes 4 s.b ++ natToBEBytes 4 s.c ++
    natToBEBytes 4 s.d ++ natToBEBytes 4 s.e ++ natToBEBytes 4 s.f ++
    natToBEBytes 4 s.g ++ natToBEBytes 4 s.h

/-- SHA-256 of a byte sequence. -/
def sha256 (msg : List Nat) : List Nat :=
  hsBytes (processWords initHS (bytesToWords (padMessage msg)))

/-- HMAC-SHA-256 with block size 64, as `crypto.createHmac('sha256', key)`. -/
def hmacSha256 (key msg : List Nat) : List Nat :=
  let k0 := if 64 < key.length then sha256 key else key
  let kp := k0 ++ List.replicate (64 - k0.length) 0
  sha256 ((kp.map fun b => b ^^^ 92) ++ sha256 ((kp.map fun b => b ^^^ 54) ++ msg))

/-- Lowercase hex encoding of a byte sequence, as `digest('hex')`;
`Nat.digitChar` yields the lowercase digits 0-9a-f. -/
def hexEncode (bs : List Nat) : String :=
  String.mk (bs.foldr
    (fun b acc => Nat.digitChar (b / 16) :: Nat.digitChar (b % 16) :: acc) [])

/-- One digit of the base64 alphabet A-Z, a-z, 0-9, +, /. -/
def b64c (n : Nat) : Char :=
  if n < 26 then Char.ofNat (65 + n)
  else if n < 52 then Char.ofNat (97 + (n - 26))
  else if n < 62 then Char.ofNat (48 + (n - 52))
  else if n = 62 then '+'
  else '/'

/-- Base64 of a byte sequence, three bytes to four characters, with
trailing padding, as `Buffer.prototype.toString('base64')`. -/
def base64Chunks : List Nat → List Char
  | [] => []
  | [a] => [b64c (a / 4), b64c (a % 4 * 16), '=', '=']
  | [a, b] => [b64c (a / 4), b64c (a % 4 * 16 + b / 16), b64c (b % 16 * 4), '=']
  | a :: b :: c :: rest =>
      b64c (a / 4) :: b64c (a % 4 * 16 + b / 16) ::
        b64c (b % 16 * 4 + c / 64) :: b64c (c % 64) :: base64Chunks rest

/-- Base64 encoding of a byte sequence as a string. -/
def base64Encode (bs : List Nat) : String := String.mk (base64Chunks bs)

/-- UTF-8 bytes of one character. -/
def utf8Char (c : Char) : List Nat :=
  let n := c.toNat
  if n < 128 then [n]
  else if n < 2048 then [192 + n / 64, 128 + n % 64]
  else if n < 65536 then [224 + n / 4096, 128 + n / 64 % 64, 128 + n % 64]
  else [240 + n / 262144, 128 + n / 4096 % 64, 128 + n / 64 % 64, 128 + n % 64]

/-- UTF-8 bytes of a string, as `new Buffer(s)`. -/
def utf8Bytes (s : String) : List Nat :=
  s.data.foldr (fun c acc => utf8Char c ++ acc) []

/-- The service base URL (`apiUrl` in the source). -/
def apiUrl : String := "https://api.cryptorg.net/"

/-- The client instance: the two credential fields stored by the
constructor. -/
structure CryptorgApi where
  apiKey : String
  apiSecret : String
deriving DecidableEq

/-- JavaScript string coercion of a possibly-null string operand of `+`:
`null` concatenates as the literal text "null". -/
def jsStr : Option String → String
  | some s => s
  | none => "null"

/-- The canonical signing string `path + '/' + nonce + '/' + queryString`
built inside `getSignature` (the number `nonce` coerces to its decimal
digits, a null query to "null"). -/
def strForSign (path : String) (queryString : Option String) (nonce : Nat) : String :=
  path ++ "/" ++ Nat.repr nonce ++ "/" ++ jsStr queryString

/-- `getSignature(path, queryString, nonce)`: base64 the canonical string,
then lowercase-hex HMAC-SHA-256 keyed by the instance secret. -/
def CryptorgApi.getSignature (api : CryptorgApi) (path : String)
    (queryString : Option String) (nonce : Nat) : String :=
  let signatureStr := base64Encode (utf8Bytes (strForSign path queryString nonce))
  hexEncode (hmacSha256 (utf8Bytes api.apiSecret) (utf8Bytes signatureStr))

/-- A header or option value: the source stores strings and one number. -/
inductive JsVal where
  | str (s : String)
  | num (n : Nat)
deriving DecidableEq

/-- The `options` object passed to the transport: headers, method string,
request URI, and the `form` field (absent for GET; for POST it holds the
`params` argument, itself possibly null). -/
structure Options where
  headers : List (String × JsVal)
  method : String
  uri : String
  form : Option (Option (List (String × String)))
deriving DecidableEq

/-- The wall clock: a stream of millisecond readings and a count of reads
made so far. Each `new Date().getTime()` consumes one position. -/
structure Clock where
  stream : Nat → Nat
  count : Nat

/-- One clock read: the current reading and the advanced clock. -/
def readClock (c : Clock) : Nat × Clock :=
  (c.stream c.count, ⟨c.stream, c.count + 1⟩)

/-- The transport outcome of one HTTP attempt: a completed exchange with
some status and raw body, or a transport-level error. -/
inductive Transport where
  | completed (status : Nat) (body : String)
  | failed (err : String)
deriving DecidableEq

/-- The callback `(err, resp, body)` shared by both branches: reject on a
transport error, otherwise resolve with the raw body. -/
def settle : Transport → Except String String
  | Transport.failed e => Except.error e
  | Transport.completed _ body => Except.ok body

/-- A dispatched request: the final options object and the promise,
given as the settlement (if any) the executor produces for each
transport outcome. `none` means the promise never settles. -/
structure Dispatch where
  options : Options
  outcome : Transport → Option (Except String String)

/-- `sendRequest(method, url, query = null, params = null)`: read the
clock once for the nonce, sign, build headers and options, and return
the promise; only the GET and POST branches of the executor settle it;
the POST branch first sets `options['form'] = params`. -/
def CryptorgApi.sendRequest (api : CryptorgApi) (method url : String)
    (query : Option String) (params : Option (List (String × String)))
    (clock : Clock) : Dispatch × Clock :=
  let (nonce, clock') := readClock clock
  let hash := api.getSignature url query nonce
  let header : List (String × JsVal) :=
    [("CTG-API-SIGNATURE", JsVal.str hash),
     ("CTG-API-KEY", JsVal.str api.apiKey),
     ("CTG-API-NONCE", JsVal.num nonce)]
  let options : Options :=
    { headers := header, method := method,
      uri := apiUrl ++ url ++ "?" ++ jsStr query, form := none }
  let finalOptions :=
    if method = "POST" then { options with form := some params } else options
  let outcome : Transport → Option (Except String String) := fun t =>
    if method = "GET" then some (settle t)
    else if method = "POST" then some (settle t)
    else none
  (⟨finalOptions, outcome⟩, clock')

/-- A possible construction failure: the spec's ConfigurationError. -/
inductive ConfigError where
  | missingCredentials
deriving DecidableEq

/-- The constructor: it stores the two credentials and performs no
validation; the `Except` layer is the JS constructor's throw channel,
which this constructor never uses. -/
def construct (key secret : String) : Except ConfigError CryptorgApi :=
  Except.ok ⟨key, secret⟩

/-- The spec's signature formula, written from its words:
`hex(HMAC_SHA256(secret, base64(path + "/" + nonce + "/" + query)))`. -/
def specSignature (secret path query : String) (nonce : Nat) : String :=
  hexEncode (hmacSha256 (utf8Bytes secret)
    (utf8Bytes (base64Encode
      (utf8Bytes (path ++ "/" ++ Nat.repr nonce ++ "/" ++ query)))))

/-- `getSignature` with the instance state threaded explicitly: the source
method reads the secret but never writes the instance. -/
def getSignatureST (api : CryptorgApi) (path : String)
    (queryString : Option String) (nonce : Nat) : String × CryptorgApi :=
  (api.getSignature path queryString nonce, api)

/-- A fixed clock whose every reading is the fixture nonce. -/
def cexClock : Clock := ⟨fun _ => 1700000000000, 0⟩

theorem sendRequest_options_eq (api : CryptorgApi) (method url : String)
    (query : Option String) (params : Option (List (String × String)))
    (clock : Clock) :
    (api.sendRequest method url query params clock).1.options =
      { headers :=
          [("CTG-API-SIGNATURE",
             JsVal.str (api.getSignature url query (clock.stream clock.count))),
           ("CTG-API-KEY", JsVal.str api.apiKey),
           ("CTG-API-NONCE", JsVal.num (clock.stream clock.count))],
        method := method,
        uri := apiUrl ++ url ++ "?" ++ jsStr query,
        form := if method = "POST" then some params else none } := by
  by_cases h : method = "POST" <;>
    simp [CryptorgApi.sendRequest, readClock, h]

/-- C1: for every path, query string and integer nonce, getSignature
returns the lowercase hex HMAC-SHA-256, keyed by the instance secret, of
the base64 of the string path + "/" + nonce + "/" + query; and at the
golden fixture (secret "shh", path "bot/info", query "botId=42", nonce
1700000000000) it produces the concrete digest. -/
theorem getSignature_matches_spec :
    (∀ (api : CryptorgApi) (path query : String) (nonce : Nat),
       api.getSignature path (some query) nonce =
         specSignature api.apiSecret path query nonce) ∧
    CryptorgApi.getSignature ⟨"key", "shh"⟩ "bot/info" (some "botId=42")
        1700000000000 =
      "18541cedb5916a3ad812349e27d93305ea5a7601801732d1c49c1accc0c77fd8" :=
  ⟨fun _ _ _ _ => rfl, by set_option maxRecDepth 100000 in decide⟩

/-- C2 fails on the code: dispatching with a null query yields the URI
"https://api.cryptorg.net/bot/all?null" — JavaScript coerces null to the
literal text "null" — and not the claimed "https://api.cryptorg.net/bot/all?". -/
theorem null_query_uri_cex :
    (CryptorgApi.sendRequest ⟨"key", "shh"⟩ "GET" "bot/all" none none
        cexClock).1.options.uri = "https://api.cryptorg.net/bot/all?null" ∧
    ¬ ((CryptorgApi.sendRequest ⟨"key", "shh"⟩ "GET" "bot/all" none none
        cexClock).1.options.uri = "https://api.cryptorg.net/bot/all?") :=
  ⟨rfl, by decide⟩

/-- C2 amended: when the query is null or absent, the request URI equals
baseUrl + path + "?" + "null" and the query component of the canonical
signing string is likewise the literal "null" — URL and signing string
stay consistent, but both carry "null", not the empty string. -/
theorem null_query_uses_literal_null :
    ∀ (api : CryptorgApi) (method url : String)
      (params : Option (List (String × String))) (clock : Clock),
      (api.sendRequest method url none params clock).1.options.uri =
        apiUrl ++ url ++ "?" ++ "null" ∧
      strForSign url none (clock.stream clock.count) =
        url ++ "/" ++ Nat.repr (clock.stream clock.count) ++ "/" ++ "null" := by
  intro api method url params clock
  exact ⟨by rw [sendRequest_options_eq]; rfl, rfl⟩

/-- C3 fails on the code: a "PUT" dispatch produces a promise that
settles on no transport outcome whatsoever — it neither resolves nor
rejects, because the executor matches only "GET" and "POST". -/
theorem put_dispatch_never_settles_cex :
    (CryptorgApi.sendRequest ⟨"key", "shh"⟩ "PUT" "bot/all" none none
        cexClock).1.outcome (Transport.completed 200 "ok") = none ∧
    (CryptorgApi.sendRequest ⟨"key", "shh"⟩ "PUT" "bot/all" none none
        cexClock).1.outcome (Transport.failed "refused") = none :=
  ⟨rfl, rfl⟩

/-- C3 amended: for every method other than "GET" and "POST", the
returned promise never settles: the executor produces no resolution and
no rejection for any transport outcome. -/
theorem unsupported_method_never_settles (method : String)
    (hg : method ≠ "GET") (hp : method ≠ "POST") :
    ∀ (api : CryptorgApi) (url : String) (query : Option String)
      (params : Option (List (String × String))) (clock : Clock)
      (t : Transport),
      (api.sendRequest method url query params clock).1.outcome t = none := by
  intro api url query params clock t
  show (if method = "GET" then some (settle t)
        else if method = "POST" then some (settle t) else none) = none
  rw [if_neg hg, if_neg hp]

theorem unsupported_method_never_settles_witness :
    (CryptorgApi.sendRequest ⟨"key", "shh"⟩ "PUT" "api/status" none none
        cexClock).1.outcome (Transport.completed 200 "ok") = none :=
  unsupported_method_never_settles "PUT" (by decide) (by decide)
    ⟨"key", "shh"⟩ "api/status" none none cexClock (Transport.completed 200 "ok")

/-- C4: getSignature is deterministic and has no side effect on the
client state: a second call with identical inputs, started from the
state the first call returns, yields the same signature string, and the
state after both calls is the original instance. -/
theorem getSignature_deterministic :
    ∀ (api : CryptorgApi) (path : String) (query : Option String) (nonce : Nat),
      (getSignatureST (getSignatureST api path query nonce).2 path query nonce).1 =
        (getSignatureST api path query nonce).1 ∧
      (getSignatureST (getSignatureST api path query nonce).2 path query nonce).2 =
        api :=
  fun _ _ _ _ => ⟨rfl, rfl⟩

/-- C5: every dispatch carries exactly the three headers
CTG-API-SIGNATURE, CTG-API-KEY and CTG-API-NONCE, the signature being
getSignature evaluated at the very nonce transmitted in CTG-API-NONCE. -/
theorem sendRequest_headers_exact :
    ∀ (api : CryptorgApi) (method url : String) (query : Option String)
      (params : Option (List (String × String))) (clock : Clock),
      (api.sendRequest method url query params clock).1.options.headers =
        [("CTG-API-SIGNATURE",
           JsVal.str (api.getSignature url query (clock.stream clock.count))),
         ("CTG-API-KEY", JsVal.str api.apiKey),
         ("CTG-API-NONCE", JsVal.num (clock.stream clock.count))] := by
  intro api method url query params clock
  rw [sendRequest_options_eq]

/-- C6: a GET dispatch has no form field at all, while a POST dispatch
carries its body mapping in the form field; the POST URI is independent
of the body, which therefore never appears in the URL. -/
theorem get_no_body_post_form_body :
    ∀ (api : CryptorgApi) (url : String) (query : Option String)
      (params params2 : Option (List (String × String))) (clock : Clock),
      (api.sendRequest "GET" url query params clock).1.options.form = none ∧
      (api.sendRequest "POST" url query params clock).1.options.form =
        some params ∧
      (api.sendRequest "POST" url query params clock).1.options.uri =
        (api.sendRequest "POST" url query params2 clock).1.options.uri := by
  intro api url query params params2 clock
  refine ⟨?_, ?_, ?_⟩
  · rw [sendRequest_options_eq]; rfl
  · rw [sendRequest_options_eq]; rfl
  · rw [sendRequest_options_eq, sendRequest_options_eq]

/-- C7: for both supported methods, the promise resolves with the raw
response body of any completed exchange regardless of its status code,
and rejects, carrying the transport error, exactly when the transport
fails. -/
theorem outcome_raw_body_or_transport_error :
    ∀ (api : CryptorgApi) (url : String) (query : Option String)
      (params : Option (List (String × String))) (clock : Clock)
      (status : Nat) (body err : String),
      (api.sendRequest "GET" url query params clock).1.outcome
          (Transport.completed status body) = some (Except.ok body) ∧
      (api.sendRequest "GET" url query params clock).1.outcome
          (Transport.failed err) = some (Except.error err) ∧
      (api.sendRequest "POST" url query params clock).1.outcome
          (Transport.completed status body) = some (Except.ok body) ∧
      (api.sendRequest "POST" url query params clock).1.outcome
          (Transport.failed err) = some (Except.error err) :=
  fun _ _ _ _ _ _ _ _ => ⟨rfl, rfl, rfl, rfl⟩

/-- C8: one dispatch consumes exactly one clock reading; the transmitted
nonce is that reading, the signature is computed from exactly that
nonce, and a subsequent dispatch reads the next clock position, so no
signature is reused or computed ahead of its nonce. -/
theorem one_nonce_one_signature :
    ∀ (api : CryptorgApi) (method url : String) (query : Option String)
      (params : Option (List (String × String))) (clock : Clock),
      (api.sendRequest method url query params clock).2.count =
        clock.count + 1 ∧
      (api.sendRequest method url query params clock).2.stream =
        clock.stream ∧
      (api.sendRequest method url query params clock).1.options.headers.getD 2
          ("", JsVal.num 0) =
        ("CTG-API-NONCE", JsVal.num (clock.stream clock.count)) ∧
      (api.sendRequest method url query params clock).1.options.headers.getD 0
          ("", JsVal.num 0) =
        ("CTG-API-SIGNATURE",
          JsVal.str (api.getSignature url query (clock.stream clock.count))) ∧
      (api.sendRequest method url query params
          ((api.sendRequest method url query params clock).2)).1.options.headers.getD 2
          ("", JsVal.num 0) =
        ("CTG-API-NONCE", JsVal.num (clock.stream (clock.count + 1))) := by
  intro api method url query params clock
  refine ⟨rfl, rfl, ?_, ?_, ?_⟩
  · rw [sendRequest_options_eq]; rfl
  · rw [sendRequest_options_eq]; rfl
  · rw [sendRequest_options_eq]; rfl

/-- C9 fails on the code: the constructor accepts empty credentials
without any check, and the resulting client is a fully usable
dispatcher — it signs and dispatches a GET whose promise resolves with
the response body. -/
theorem construct_empty_credentials_cex :
    construct "" "" = Except.ok ⟨"", ""⟩ ∧
    (CryptorgApi.sendRequest ⟨"", ""⟩ "GET" "bot/all" none none
        cexClock).1.outcome (Transport.completed 200 "body") =
      some (Except.ok "body") ∧
    (CryptorgApi.sendRequest ⟨"", ""⟩ "GET" "bot/all" none none
        cexClock).1.options.headers.getD 0 ("", JsVal.num 0) =
      ("CTG-API-SIGNATURE",
        JsVal.str "c5da9332a6a02047d0d39ae9d3e4607f32c504bb354dddafc7de433531df0dde") :=
  ⟨rfl, rfl, by set_option maxRecDepth 100000 in decide⟩

/-- C9 amended: construction never fails: the constructor merely stores
the given key and secret verbatim, with no validation of any kind, even
when both are empty. -/
theorem construct_never_fails :
    ∀ key secret : String, construct key secret = Except.ok ⟨key, secret⟩ :=
  fun _ _ => rfl

/-- C10: whatever the query argument is (a string or null), the text
after "?" in the request URI and the query component of the canonical
string hashed inside getSignature are the same string, and the
signature is exactly the hex HMAC of the base64 of that canonical
string. -/
theorem uri_and_signed_query_agree :
    ∀ (api : CryptorgApi) (method url : String) (query : Option String)
      (params : Option (List (String × String))) (clock : Clock),
      ∃ qc : String,
        (api.sendRequest method url query params clock).1.options.uri =
          apiUrl ++ url ++ "?" ++ qc ∧
        strForSign url query (clock.stream clock.count) =
          url ++ "/" ++ Nat.repr (clock.stream clock.count) ++ "/" ++ qc ∧
        api.getSignature url query (clock.stream clock.count) =
          hexEncode (hmacSha256 (utf8Bytes api.apiSecret)
            (utf8Bytes (base64Encode
              (utf8Bytes (strForSign url query (clock.stream clock.count)))))) := by
  intro api method url query params clock
  exact ⟨jsStr query, by rw [sendRequest_options_eq], rfl, rfl⟩

end Cryptorg
